import Mathlib

/-!
Shallow embedding of `src/monitors/TokenSpeedMonitor.ts` (class `TokenSpeedMonitor`).

Timestamps (`Date.now()`) and token counts are modelled as `Int` (milliseconds);
speeds and elapsed time, which the source computes with JavaScript division, are
modelled as `ℚ`.  Every method that reads `Date.now()` takes the current instant
`now` as an explicit parameter.  The two `NodeJS.Timeout` fields are modelled as
booleans recording whether the corresponding timer is armed.  `updateDisplay`
renders to the status bar; what the claims observe about it is whether the
throttle gate let the refresh happen and when `lastDisplayUpdate` was stamped,
so `throttledUpdateDisplay` returns the updated monitor together with a flag
that is `true` exactly when the gate passed and the display was refreshed.
-/

/-- `const SPEED_BUFFER_SIZE = 10`. -/
def SPEED_BUFFER_SIZE : Int := 10

/-- `const DISPLAY_THROTTLE_MS = 100`. -/
def DISPLAY_THROTTLE_MS : Int := 100

/-- `interface TokenDataPoint { count: number; timestamp: number }`. -/
structure TokenDataPoint where
  count : Int
  timestamp : Int
  deriving Repr, DecidableEq, Inhabited

/-- `interface TokenSpeedMetrics` — the mutable metrics snapshot. -/
@[ext] structure TokenSpeedMetrics where
  currentSpeed : ℚ
  averageSpeed : ℚ
  peakSpeed : ℚ
  totalTokens : Int
  elapsedTime : ℚ
  deriving Repr, DecidableEq, Inhabited

/-- The state of a `TokenSpeedMonitor` instance: its private fields.
`metricsIntervalActive` models `metricsUpdateInterval !== null` and
`hideTimeoutActive` models `hideTimeout !== null`. -/
@[ext] structure TokenSpeedMonitor where
  currentMetrics : TokenSpeedMetrics
  isTracking : Bool
  startTime : Int
  tokenBuffer : List TokenDataPoint
  lastDisplayUpdate : Int
  metricsIntervalActive : Bool
  hideTimeoutActive : Bool
  deriving Repr, DecidableEq, Inhabited

/-- The zeroed snapshot written by `resetMetrics`. -/
def initialMetrics : TokenSpeedMetrics :=
  { currentSpeed := 0, averageSpeed := 0, peakSpeed := 0, totalTokens := 0, elapsedTime := 0 }

/-- `resetMetrics()`: zeroes the snapshot and clears the buffer; nothing else. -/
def resetMetrics (m : TokenSpeedMonitor) : TokenSpeedMonitor :=
  { m with currentMetrics := initialMetrics, tokenBuffer := [] }

/-- `clearTimeouts()`: cancels both timers. -/
def clearTimeouts (m : TokenSpeedMonitor) : TokenSpeedMonitor :=
  { m with metricsIntervalActive := false, hideTimeoutActive := false }

/-- The monitor state right after the constructor ran (fields at their
initializers, then `resetMetrics()`; no timer armed). -/
def initialMonitor : TokenSpeedMonitor :=
  resetMetrics
    { currentMetrics := initialMetrics, isTracking := false, startTime := 0,
      tokenBuffer := [], lastDisplayUpdate := 0,
      metricsIntervalActive := false, hideTimeoutActive := false }

/-- `startTracking(modelName)` state effect: `clearTimeouts(); isTracking = true;
startTime = Date.now(); resetMetrics();` then arms the periodic broadcaster.
The `modelName` argument only feeds the emitted event, handled in `step`. -/
def startTracking (now : Int) (m : TokenSpeedMonitor) : TokenSpeedMonitor :=
  let m1 := clearTimeouts m
  let m2 := { m1 with isTracking := true, startTime := now }
  let m3 := resetMetrics m2
  { m3 with metricsIntervalActive := true }

/-- `(now - this.startTime) / 1000` — the `elapsed` local of `calculateSpeed`. -/
def elapsedQ (now : Int) (m : TokenSpeedMonitor) : ℚ :=
  ((now - m.startTime : Int) : ℚ) / 1000

/-- `this.tokenBuffer.reduce((sum, point) => sum + point.count, 0)`. -/
def recentTokens (m : TokenSpeedMonitor) : Int :=
  (m.tokenBuffer.map TokenDataPoint.count).sum

/-- `(now - this.tokenBuffer[0].timestamp) / 1000` — the `timeSpan` local. -/
def timeSpanQ (now : Int) (m : TokenSpeedMonitor) : ℚ :=
  ((now - m.tokenBuffer.headI.timestamp : Int) : ℚ) / 1000

/-- `calculateSpeed()`: sets `elapsedTime`; when `elapsed > 0`, recomputes
`currentSpeed` from the buffered window (only when the buffer holds more than
one point and the span is positive), then `averageSpeed`, then ratchets
`peakSpeed`. -/
def calculateSpeed (now : Int) (m : TokenSpeedMonitor) : TokenSpeedMonitor :=
  let elapsed := elapsedQ now m
  let cm0 := { m.currentMetrics with elapsedTime := elapsed }
  if 0 < elapsed then
    let cm1 : TokenSpeedMetrics :=
      if 1 < m.tokenBuffer.length then
        if 0 < timeSpanQ now m then
          { cm0 with currentSpeed := (recentTokens m : ℚ) / timeSpanQ now m }
        else cm0
      else cm0
    let cm2 : TokenSpeedMetrics := { cm1 with averageSpeed := (cm1.totalTokens : ℚ) / elapsed }
    let cm3 : TokenSpeedMetrics :=
      if cm2.peakSpeed < cm2.currentSpeed then { cm2 with peakSpeed := cm2.currentSpeed }
      else cm2
    { m with currentMetrics := cm3 }
  else
    { m with currentMetrics := cm0 }

/-- `throttledUpdateDisplay()`: the display-throttle gate.  Returns the updated
monitor and whether the gate passed (`updateDisplay()` ran and
`lastDisplayUpdate` was stamped with `now`). -/
def throttledUpdateDisplay (now : Int) (m : TokenSpeedMonitor) :
    TokenSpeedMonitor × Bool :=
  if DISPLAY_THROTTLE_MS ≤ now - m.lastDisplayUpdate then
    ({ m with lastDisplayUpdate := now }, true)
  else (m, false)

/-- `addTokens(count)`: no-op unless tracking and `count ≠ 0`; otherwise adds
`count` to `totalTokens`, appends the timestamped point, evicts points at or
before `now - SPEED_BUFFER_SIZE * DISPLAY_THROTTLE_MS`, recomputes the
snapshot and attempts a throttled display refresh.  The boolean is the
display-refresh flag from `throttledUpdateDisplay` (`false` on the no-op
path). -/
def addTokens (now count : Int) (m : TokenSpeedMonitor) :
    TokenSpeedMonitor × Bool :=
  if !m.isTracking || count == 0 then (m, false)
  else
    let m1 := { m with currentMetrics :=
      { m.currentMetrics with totalTokens := m.currentMetrics.totalTokens + count } }
    let buf := m1.tokenBuffer ++ [{ count := count, timestamp := now }]
    let cutoffTime := now - SPEED_BUFFER_SIZE * DISPLAY_THROTTLE_MS
    let m2 := { m1 with tokenBuffer := buf.filter (fun p => cutoffTime < p.timestamp) }
    let m3 := calculateSpeed now m2
    throttledUpdateDisplay now m3

/-- `stopTracking()` state effect: leaves Tracking, cancels the broadcaster,
arms the hide-timer.  The `trackingEnded` event is handled in `step`. -/
def stopTracking (m : TokenSpeedMonitor) : TokenSpeedMonitor :=
  let m1 := { m with isTracking := false }
  let m2 := clearTimeouts m1
  { m2 with hideTimeoutActive := true }

/-- `getSpeedIcon(speed)`: five ordered bands, first match wins. -/
def getSpeedIcon (speed : ℚ) : String :=
  if speed < 10 then "🐌"
  else if speed < 30 then "🚶"
  else if speed < 60 then "🏃"
  else if speed < 100 then "🚗"
  else "🚀"

/-- Events the monitor emits synchronously from its public methods.  The
periodic `metricsUpdated` broadcasts are timer ticks, not synchronous effects
of any method. -/
inductive MonitorEvent where
  | trackingStarted (model : String)
  | trackingEnded (metrics : TokenSpeedMetrics)
  | metricsUpdated (metrics : TokenSpeedMetrics)
  deriving Repr, DecidableEq

/-- Observable output of one public-method call: the synchronous events it
emitted and whether it refreshed the display. -/
structure StepOut where
  events : List MonitorEvent
  displayRefreshed : Bool
  deriving Repr, DecidableEq

/-- One inbound call of the public interface (§6 of the spec):
`startTracking(model)`, `addTokens(count)` or `stopTracking()`, each carrying
the `Date.now()` instant at which it runs. -/
inductive Op where
  | startTracking (now : Int) (model : String)
  | addTokens (now : Int) (count : Int)
  | stopTracking (now : Int)
  deriving Repr, DecidableEq

/-- Whether the call is a `startTracking`. -/
def Op.isStart : Op → Bool
  | Op.startTracking _ _ => true
  | _ => false

/-- Executes one inbound call: the new monitor state plus its observable
output.  `addTokens` emits no synchronous event (its body contains no `emit`);
`startTracking` emits `trackingStarted`, `stopTracking` emits `trackingEnded`
with the final snapshot. -/
def step : Op → TokenSpeedMonitor → TokenSpeedMonitor × StepOut
  | Op.startTracking now model, m =>
      (startTracking now m, ⟨[MonitorEvent.trackingStarted model], false⟩)
  | Op.addTokens now c, m =>
      let r := addTokens now c m
      (r.1, ⟨[], r.2⟩)
  | Op.stopTracking _, m =>
      let m2 := stopTracking m
      (m2, ⟨[MonitorEvent.trackingEnded m2.currentMetrics], false⟩)

/-- Runs a list of inbound calls. -/
def run : List Op → TokenSpeedMonitor → TokenSpeedMonitor
  | [], m => m
  | op :: ops, m => run ops (step op m).1

/-- The monitor states after each call of the trace, in order. -/
def states : List Op → TokenSpeedMonitor → List TokenSpeedMonitor
  | [], _ => []
  | op :: ops, m =>
      let m1 := (step op m).1
      m1 :: states ops m1

/-- The instants of the successful display refreshes along a trace. -/
def refreshInstants : List Op → TokenSpeedMonitor → List Int
  | [], _ => []
  | op :: ops, m =>
      let r := step op m
      match op with
      | Op.addTokens now _ =>
          if r.2.displayRefreshed then now :: refreshInstants ops r.1
          else refreshInstants ops r.1
      | _ => refreshInstants ops r.1

/-- A concrete monitor with two buffered arrivals, used to exercise the
windowed-speed branch on explicit inputs. -/
def bufferedMonitor : TokenSpeedMonitor :=
  { initialMonitor with
    tokenBuffer := [TokenDataPoint.mk 5 500, TokenDataPoint.mk 5 1500] }

/-- A concrete in-session call trace with no `startTracking` in it. -/
def sessionOpsW : List Op :=
  [Op.addTokens 100 5, Op.addTokens 200 7, Op.stopTracking 300]

/-- A concrete monitor whose last successful display refresh was at 1000 ms. -/
def mLastW : TokenSpeedMonitor :=
  { initialMonitor with lastDisplayUpdate := 1000 }

/-! ### Field-level characterizations of the operations -/

theorem calculateSpeed_isTracking (now : Int) (m : TokenSpeedMonitor) :
    (calculateSpeed now m).isTracking = m.isTracking := by
  simp only [calculateSpeed]
  split_ifs <;> rfl

theorem calculateSpeed_startTime (now : Int) (m : TokenSpeedMonitor) :
    (calculateSpeed now m).startTime = m.startTime := by
  simp only [calculateSpeed]
  split_ifs <;> rfl

theorem calculateSpeed_tokenBuffer (now : Int) (m : TokenSpeedMonitor) :
    (calculateSpeed now m).tokenBuffer = m.tokenBuffer := by
  simp only [calculateSpeed]
  split_ifs <;> rfl

theorem calculateSpeed_lastDisplayUpdate (now : Int) (m : TokenSpeedMonitor) :
    (calculateSpeed now m).lastDisplayUpdate = m.lastDisplayUpdate := by
  simp only [calculateSpeed]
  split_ifs <;> rfl

theorem calculateSpeed_metricsIntervalActive (now : Int) (m : TokenSpeedMonitor) :
    (calculateSpeed now m).metricsIntervalActive = m.metricsIntervalActive := by
  simp only [calculateSpeed]
  split_ifs <;> rfl

theorem calculateSpeed_hideTimeoutActive (now : Int) (m : TokenSpeedMonitor) :
    (calculateSpeed now m).hideTimeoutActive = m.hideTimeoutActive := by
  simp only [calculateSpeed]
  split_ifs <;> rfl

theorem calculateSpeed_totalTokens (now : Int) (m : TokenSpeedMonitor) :
    (calculateSpeed now m).currentMetrics.totalTokens = m.currentMetrics.totalTokens := by
  simp only [calculateSpeed]
  split_ifs <;> rfl

theorem calculateSpeed_elapsedTime (now : Int) (m : TokenSpeedMonitor) :
    (calculateSpeed now m).currentMetrics.elapsedTime = elapsedQ now m := by
  simp only [calculateSpeed]
  split_ifs <;> rfl

theorem calculateSpeed_currentSpeed (now : Int) (m : TokenSpeedMonitor) :
    (calculateSpeed now m).currentMetrics.currentSpeed =
      if 0 < elapsedQ now m ∧ 1 < m.tokenBuffer.length ∧ 0 < timeSpanQ now m then
        (recentTokens m : ℚ) / timeSpanQ now m
      else m.currentMetrics.currentSpeed := by
  simp only [calculateSpeed]
  split_ifs <;> simp_all

theorem calculateSpeed_averageSpeed (now : Int) (m : TokenSpeedMonitor) :
    (calculateSpeed now m).currentMetrics.averageSpeed =
      if 0 < elapsedQ now m then (m.currentMetrics.totalTokens : ℚ) / elapsedQ now m
      else m.currentMetrics.averageSpeed := by
  simp only [calculateSpeed]
  split_ifs <;> simp_all

theorem calculateSpeed_peakSpeed (now : Int) (m : TokenSpeedMonitor) :
    (calculateSpeed now m).currentMetrics.peakSpeed =
      if 0 < elapsedQ now m then
        if m.currentMetrics.peakSpeed < (calculateSpeed now m).currentMetrics.currentSpeed then
          (calculateSpeed now m).currentMetrics.currentSpeed
        else m.currentMetrics.peakSpeed
      else m.currentMetrics.peakSpeed := by
  rw [calculateSpeed_currentSpeed]
  simp only [calculateSpeed]
  split_ifs <;> simp_all

theorem throttledUpdateDisplay_fst (now : Int) (m : TokenSpeedMonitor) :
    (throttledUpdateDisplay now m).1 =
      if DISPLAY_THROTTLE_MS ≤ now - m.lastDisplayUpdate then
        { m with lastDisplayUpdate := now }
      else m := by
  simp only [throttledUpdateDisplay]
  split_ifs <;> rfl

theorem throttledUpdateDisplay_snd (now : Int) (m : TokenSpeedMonitor) :
    (throttledUpdateDisplay now m).2 =
      decide (DISPLAY_THROTTLE_MS ≤ now - m.lastDisplayUpdate) := by
  simp only [throttledUpdateDisplay]
  split_ifs <;> simp_all

theorem throttledUpdateDisplay_fst_currentMetrics (now : Int) (m : TokenSpeedMonitor) :
    (throttledUpdateDisplay now m).1.currentMetrics = m.currentMetrics := by
  rw [throttledUpdateDisplay_fst]
  split_ifs <;> rfl

theorem throttledUpdateDisplay_fst_isTracking (now : Int) (m : TokenSpeedMonitor) :
    (throttledUpdateDisplay now m).1.isTracking = m.isTracking := by
  rw [throttledUpdateDisplay_fst]
  split_ifs <;> rfl

theorem throttledUpdateDisplay_fst_startTime (now : Int) (m : TokenSpeedMonitor) :
    (throttledUpdateDisplay now m).1.startTime = m.startTime := by
  rw [throttledUpdateDisplay_fst]
  split_ifs <;> rfl

theorem throttledUpdateDisplay_fst_tokenBuffer (now : Int) (m : TokenSpeedMonitor) :
    (throttledUpdateDisplay now m).1.tokenBuffer = m.tokenBuffer := by
  rw [throttledUpdateDisplay_fst]
  split_ifs <;> rfl

theorem addTokens_noop (now c : Int) (m : TokenSpeedMonitor)
    (h : m.isTracking = false ∨ c = 0) : addTokens now c m = (m, false) := by
  rcases h with h | h <;> simp [addTokens, h]

theorem addTokens_eq (now c : Int) (m : TokenSpeedMonitor)
    (h : m.isTracking = true) (hc : c ≠ 0) :
    addTokens now c m =
      throttledUpdateDisplay now (calculateSpeed now
        { m with
          currentMetrics :=
            { m.currentMetrics with
              totalTokens := m.currentMetrics.totalTokens + c },
          tokenBuffer :=
            (m.tokenBuffer ++ [TokenDataPoint.mk c now]).filter
              (fun p => now - SPEED_BUFFER_SIZE * DISPLAY_THROTTLE_MS < p.timestamp) }) := by
  simp [addTokens, h, hc]

theorem addTokens_fst_isTracking (now c : Int) (m : TokenSpeedMonitor) :
    (addTokens now c m).1.isTracking = m.isTracking := by
  by_cases h : m.isTracking = true
  · by_cases hc : c = 0
    · rw [addTokens_noop now c m (Or.inr hc)]
    · rw [addTokens_eq now c m h hc, throttledUpdateDisplay_fst_isTracking,
        calculateSpeed_isTracking]
  · rw [addTokens_noop now c m (Or.inl (by simpa using h))]

theorem addTokens_fst_startTime (now c : Int) (m : TokenSpeedMonitor) :
    (addTokens now c m).1.startTime = m.startTime := by
  by_cases h : m.isTracking = true
  · by_cases hc : c = 0
    · rw [addTokens_noop now c m (Or.inr hc)]
    · rw [addTokens_eq now c m h hc, throttledUpdateDisplay_fst_startTime,
        calculateSpeed_startTime]
  · rw [addTokens_noop now c m (Or.inl (by simpa using h))]

theorem addTokens_fst_totalTokens (now c : Int) (m : TokenSpeedMonitor)
    (h : m.isTracking = true) (hc : c ≠ 0) :
    (addTokens now c m).1.currentMetrics.totalTokens =
      m.currentMetrics.totalTokens + c := by
  rw [addTokens_eq now c m h hc, throttledUpdateDisplay_fst_currentMetrics,
    calculateSpeed_totalTokens]

theorem addTokens_fst_tokenBuffer (now c : Int) (m : TokenSpeedMonitor)
    (h : m.isTracking = true) (hc : c ≠ 0) :
    (addTokens now c m).1.tokenBuffer =
      (m.tokenBuffer ++ [TokenDataPoint.mk c now]).filter
        (fun p => now - SPEED_BUFFER_SIZE * DISPLAY_THROTTLE_MS < p.timestamp) := by
  rw [addTokens_eq now c m h hc, throttledUpdateDisplay_fst_tokenBuffer,
    calculateSpeed_tokenBuffer]

theorem addTokens_snd_eq (now c : Int) (m : TokenSpeedMonitor)
    (h : m.isTracking = true) (hc : c ≠ 0) :
    (addTokens now c m).2 =
      decide (DISPLAY_THROTTLE_MS ≤ now - m.lastDisplayUpdate) := by
  rw [addTokens_eq now c m h hc, throttledUpdateDisplay_snd,
    calculateSpeed_lastDisplayUpdate]

set_option linter.unnecessarySeqFocus false in
theorem addTokens_fst_lastDisplayUpdate (now c : Int) (m : TokenSpeedMonitor) :
    (addTokens now c m).1.lastDisplayUpdate =
      if (addTokens now c m).2 = true then now else m.lastDisplayUpdate := by
  by_cases h : m.isTracking = true
  · by_cases hc : c = 0
    · rw [addTokens_noop now c m (Or.inr hc)]
      simp
    · rw [addTokens_eq now c m h hc, throttledUpdateDisplay_fst,
        throttledUpdateDisplay_snd]
      split_ifs with h1 h2 h2 <;> simp_all [calculateSpeed_lastDisplayUpdate] <;> omega
  · rw [addTokens_noop now c m (Or.inl (by simpa using h))]
    simp

theorem addTokens_snd_true (now c : Int) (m : TokenSpeedMonitor)
    (h : (addTokens now c m).2 = true) :
    DISPLAY_THROTTLE_MS ≤ now - m.lastDisplayUpdate ∧
      (addTokens now c m).1.lastDisplayUpdate = now := by
  by_cases ht : m.isTracking = true
  · by_cases hc : c = 0
    · rw [addTokens_noop now c m (Or.inr hc)] at h
      exact absurd h (by simp)
    · have h2 := addTokens_snd_eq now c m ht hc
      rw [h, eq_comm, decide_eq_true_eq] at h2
      refine ⟨h2, ?_⟩
      rw [addTokens_fst_lastDisplayUpdate, h]
      simp
  · rw [addTokens_noop now c m (Or.inl (by simpa using ht))] at h
    exact absurd h (by simp)

theorem addTokens_snd_false (now c : Int) (m : TokenSpeedMonitor)
    (h : (addTokens now c m).2 = false) :
    (addTokens now c m).1.lastDisplayUpdate = m.lastDisplayUpdate := by
  rw [addTokens_fst_lastDisplayUpdate, h]
  simp

theorem calculateSpeed_peak_mono (now : Int) (m : TokenSpeedMonitor) :
    m.currentMetrics.peakSpeed ≤ (calculateSpeed now m).currentMetrics.peakSpeed := by
  rw [calculateSpeed_peakSpeed]
  split_ifs with h1 h2
  · exact le_of_lt h2
  · exact le_refl _
  · exact le_refl _

theorem calculateSpeed_curr_le_peak (now : Int) (m : TokenSpeedMonitor)
    (h : m.currentMetrics.currentSpeed ≤ m.currentMetrics.peakSpeed) :
    (calculateSpeed now m).currentMetrics.currentSpeed ≤
      (calculateSpeed now m).currentMetrics.peakSpeed := by
  rw [calculateSpeed_peakSpeed]
  split_ifs with h1 h2
  · exact le_refl _
  · exact le_of_not_lt h2
  · have : (calculateSpeed now m).currentMetrics.currentSpeed =
        m.currentMetrics.currentSpeed := by
      rw [calculateSpeed_currentSpeed]
      split_ifs with h3
      · exact absurd h3.1 h1
      · rfl
    rw [this]
    exact h

theorem addTokens_fst_currentMetrics (now c : Int) (m : TokenSpeedMonitor)
    (h : m.isTracking = true) (hc : c ≠ 0) :
    (addTokens now c m).1.currentMetrics =
      (calculateSpeed now
        { m with
          currentMetrics :=
            { m.currentMetrics with
              totalTokens := m.currentMetrics.totalTokens + c },
          tokenBuffer :=
            (m.tokenBuffer ++ [TokenDataPoint.mk c now]).filter
              (fun p => now - SPEED_BUFFER_SIZE * DISPLAY_THROTTLE_MS < p.timestamp) }).currentMetrics := by
  rw [addTokens_eq now c m h hc, throttledUpdateDisplay_fst_currentMetrics]

theorem addTokens_peak_mono (now c : Int) (m : TokenSpeedMonitor) :
    m.currentMetrics.peakSpeed ≤ (addTokens now c m).1.currentMetrics.peakSpeed := by
  by_cases ht : m.isTracking = true
  · by_cases hc : c = 0
    · rw [addTokens_noop now c m (Or.inr hc)]
    · rw [addTokens_fst_currentMetrics now c m ht hc]
      exact calculateSpeed_peak_mono now _
  · rw [addTokens_noop now c m (Or.inl (by simpa using ht))]

theorem addTokens_curr_le_peak (now c : Int) (m : TokenSpeedMonitor)
    (h : m.currentMetrics.currentSpeed ≤ m.currentMetrics.peakSpeed) :
    (addTokens now c m).1.currentMetrics.currentSpeed ≤
      (addTokens now c m).1.currentMetrics.peakSpeed := by
  by_cases ht : m.isTracking = true
  · by_cases hc : c = 0
    · rw [addTokens_noop now c m (Or.inr hc)]
      exact h
    · rw [addTokens_fst_currentMetrics now c m ht hc]
      exact calculateSpeed_curr_le_peak now _ h
  · rw [addTokens_noop now c m (Or.inl (by simpa using ht))]
    exact h

theorem stopTracking_currentMetrics (m : TokenSpeedMonitor) :
    (stopTracking m).currentMetrics = m.currentMetrics := rfl

theorem stopTracking_lastDisplayUpdate (m : TokenSpeedMonitor) :
    (stopTracking m).lastDisplayUpdate = m.lastDisplayUpdate := rfl

theorem startTracking_lastDisplayUpdate (now : Int) (m : TokenSpeedMonitor) :
    (startTracking now m).lastDisplayUpdate = m.lastDisplayUpdate := rfl

theorem startTracking_currentMetrics (now : Int) (m : TokenSpeedMonitor) :
    (startTracking now m).currentMetrics = initialMetrics := rfl

theorem startTracking_isTracking (now : Int) (m : TokenSpeedMonitor) :
    (startTracking now m).isTracking = true := rfl

theorem startTracking_startTime (now : Int) (m : TokenSpeedMonitor) :
    (startTracking now m).startTime = now := rfl

theorem startTracking_tokenBuffer (now : Int) (m : TokenSpeedMonitor) :
    (startTracking now m).tokenBuffer = [] := rfl

theorem step_addTokens_fst (now c : Int) (m : TokenSpeedMonitor) :
    (step (Op.addTokens now c) m).1 = (addTokens now c m).1 := rfl

theorem step_startTracking_fst (now : Int) (model : String) (m : TokenSpeedMonitor) :
    (step (Op.startTracking now model) m).1 = startTracking now m := rfl

theorem step_stopTracking_fst (now : Int) (m : TokenSpeedMonitor) :
    (step (Op.stopTracking now) m).1 = stopTracking m := rfl

theorem run_addTokens_totalTokens (calls : List (Int × Int)) :
    ∀ m : TokenSpeedMonitor, m.isTracking = true →
      (∀ tc ∈ calls, tc.2 ≠ (0 : Int)) →
      (run (calls.map fun tc => Op.addTokens tc.1 tc.2) m).currentMetrics.totalTokens
        = m.currentMetrics.totalTokens + (calls.map Prod.snd).sum := by
  induction calls with
  | nil => intro m _ _; simp [run]
  | cons tc rest ih =>
      intro m hm hc
      simp only [List.map_cons, run, step_addTokens_fst]
      rw [ih _ (by rw [addTokens_fst_isTracking]; exact hm)
        (fun x hx => hc x (List.mem_cons_of_mem _ hx))]
      rw [addTokens_fst_totalTokens tc.1 tc.2 m hm (hc tc (List.mem_cons_self _ _))]
      simp [add_assoc]

theorem step_peak_mono (op : Op) (m : TokenSpeedMonitor) (h : op.isStart = false) :
    m.currentMetrics.peakSpeed ≤ (step op m).1.currentMetrics.peakSpeed := by
  cases op with
  | startTracking now model => simp [Op.isStart] at h
  | addTokens now c => exact addTokens_peak_mono now c m
  | stopTracking now => rw [step_stopTracking_fst, stopTracking_currentMetrics]

theorem step_curr_le_peak (op : Op) (m : TokenSpeedMonitor) (h : op.isStart = false)
    (hcp : m.currentMetrics.currentSpeed ≤ m.currentMetrics.peakSpeed) :
    (step op m).1.currentMetrics.currentSpeed ≤
      (step op m).1.currentMetrics.peakSpeed := by
  cases op with
  | startTracking now model => simp [Op.isStart] at h
  | addTokens now c => exact addTokens_curr_le_peak now c m hcp
  | stopTracking now => rw [step_stopTracking_fst, stopTracking_currentMetrics]; exact hcp

theorem states_peak_invariant (ops : List Op) :
    ∀ m : TokenSpeedMonitor, (∀ op ∈ ops, op.isStart = false) →
      m.currentMetrics.currentSpeed ≤ m.currentMetrics.peakSpeed →
      List.Chain' (fun a b => a.currentMetrics.peakSpeed ≤ b.currentMetrics.peakSpeed)
        (m :: states ops m) ∧
      ∀ s ∈ m :: states ops m,
        s.currentMetrics.currentSpeed ≤ s.currentMetrics.peakSpeed := by
  induction ops with
  | nil =>
      intro m _ hcp
      refine ⟨List.chain'_singleton m, ?_⟩
      intro s hs
      simp [states] at hs
      rw [hs]
      exact hcp
  | cons op rest ih =>
      intro m hops hcp
      have hop : op.isStart = false := hops op (List.mem_cons_self _ _)
      have hrest : ∀ o ∈ rest, o.isStart = false :=
        fun o ho => hops o (List.mem_cons_of_mem _ ho)
      have hcp1 := step_curr_le_peak op m hop hcp
      obtain ⟨ihchain, ihinv⟩ := ih (step op m).1 hrest hcp1
      constructor
      · rw [show states (op :: rest) m = (step op m).1 :: states rest (step op m).1 from rfl,
          List.chain'_cons]
        exact ⟨step_peak_mono op m hop, ihchain⟩
      · intro s hs
        rw [show states (op :: rest) m = (step op m).1 :: states rest (step op m).1 from rfl]
          at hs
        rcases List.mem_cons.mp hs with h1 | h1
        · rw [h1]; exact hcp
        · exact ihinv s h1

theorem refreshInstants_chain (ops : List Op) :
    ∀ m : TokenSpeedMonitor,
      List.Chain' (fun a b => a + DISPLAY_THROTTLE_MS ≤ b)
        (m.lastDisplayUpdate :: refreshInstants ops m) := by
  induction ops with
  | nil => intro m; simp [refreshInstants]
  | cons op rest ih =>
      intro m
      cases op with
      | startTracking now model =>
          have h1 : refreshInstants (Op.startTracking now model :: rest) m
              = refreshInstants rest (startTracking now m) := rfl
          rw [h1]
          have h2 := ih (startTracking now m)
          rwa [startTracking_lastDisplayUpdate] at h2
      | stopTracking now =>
          have h1 : refreshInstants (Op.stopTracking now :: rest) m
              = refreshInstants rest (stopTracking m) := rfl
          rw [h1]
          have h2 := ih (stopTracking m)
          rwa [stopTracking_lastDisplayUpdate] at h2
      | addTokens now c =>
          by_cases hr : (addTokens now c m).2 = true
          · have h1 : refreshInstants (Op.addTokens now c :: rest) m
                = now :: refreshInstants rest (addTokens now c m).1 := by
              simp [refreshInstants, step, hr]
            rw [h1]
            obtain ⟨hge, hlast⟩ := addTokens_snd_true now c m hr
            rw [List.chain'_cons]
            refine ⟨by omega, ?_⟩
            have h2 := ih (addTokens now c m).1
            rwa [hlast] at h2
          · have hrf : (addTokens now c m).2 = false := by
              simpa using hr
            have h1 : refreshInstants (Op.addTokens now c :: rest) m
                = refreshInstants rest (addTokens now c m).1 := by
              simp [refreshInstants, step, hrf]
            rw [h1]
            have h2 := ih (addTokens now c m).1
            rwa [addTokens_snd_false now c m hrf] at h2

theorem calculateSpeed_curr_le_peak_of_pos (now : Int) (m : TokenSpeedMonitor)
    (h : 0 < elapsedQ now m) :
    (calculateSpeed now m).currentMetrics.currentSpeed ≤
      (calculateSpeed now m).currentMetrics.peakSpeed := by
  rw [calculateSpeed_peakSpeed, if_pos h]
  split_ifs with h2
  · exact le_refl _
  · exact le_of_not_lt h2

theorem calculateSpeed_idem (now : Int) (m : TokenSpeedMonitor) :
    calculateSpeed now (calculateSpeed now m) = calculateSpeed now m := by
  set m1 := calculateSpeed now m with hm1
  have he : elapsedQ now m1 = elapsedQ now m := by
    unfold elapsedQ; rw [hm1, calculateSpeed_startTime]
  have hb : m1.tokenBuffer = m.tokenBuffer := by rw [hm1, calculateSpeed_tokenBuffer]
  have hts : timeSpanQ now m1 = timeSpanQ now m := by
    unfold timeSpanQ; rw [hb]
  have hrt : recentTokens m1 = recentTokens m := by
    unfold recentTokens; rw [hb]
  have hcurr : (calculateSpeed now m1).currentMetrics.currentSpeed =
      m1.currentMetrics.currentSpeed := by
    rw [calculateSpeed_currentSpeed, he, hb, hts, hrt]
    split_ifs with h
    · rw [hm1, calculateSpeed_currentSpeed, if_pos h]
    · rfl
  have hpeak : (calculateSpeed now m1).currentMetrics.peakSpeed =
      m1.currentMetrics.peakSpeed := by
    rw [calculateSpeed_peakSpeed, he, hcurr]
    split_ifs with h1 h2
    · exact absurd h2 (not_lt.mpr (calculateSpeed_curr_le_peak_of_pos now m h1))
    · rfl
    · rfl
  have havg : (calculateSpeed now m1).currentMetrics.averageSpeed =
      m1.currentMetrics.averageSpeed := by
    rw [calculateSpeed_averageSpeed, he]
    split_ifs with h
    · rw [hm1, calculateSpeed_totalTokens, calculateSpeed_averageSpeed, if_pos h]
    · rfl
  have het : (calculateSpeed now m1).currentMetrics.elapsedTime =
      m1.currentMetrics.elapsedTime := by
    rw [calculateSpeed_elapsedTime, he, hm1, calculateSpeed_elapsedTime]
  have htt : (calculateSpeed now m1).currentMetrics.totalTokens =
      m1.currentMetrics.totalTokens := calculateSpeed_totalTokens now m1
  apply TokenSpeedMonitor.ext
  · apply TokenSpeedMetrics.ext
    · exact hcurr
    · exact havg
    · exact hpeak
    · exact htt
    · exact het
  · exact calculateSpeed_isTracking now m1
  · exact calculateSpeed_startTime now m1
  · exact calculateSpeed_tokenBuffer now m1
  · exact calculateSpeed_lastDisplayUpdate now m1
  · exact calculateSpeed_metricsIntervalActive now m1
  · exact calculateSpeed_hideTimeoutActive now m1

/-! ### The claims -/

/-- Claim C1: for every sequence of `addTokens(c)` calls with `c ≥ 1` made
while the monitor is in Tracking state, `totalTokens` equals the sum of all
those `c` since the last `startTracking` (which resets `totalTokens` to 0;
each `addTokens` adds exactly `count`). -/
theorem totalTokens_sum_session (m : TokenSpeedMonitor) (t0 : Int) (model : String)
    (calls : List (Int × Int)) (h : ∀ tc ∈ calls, (1 : Int) ≤ tc.2) :
    (run (Op.startTracking t0 model :: calls.map fun tc => Op.addTokens tc.1 tc.2)
        m).currentMetrics.totalTokens
      = (calls.map Prod.snd).sum := by
  have h0 : run (Op.startTracking t0 model :: calls.map fun tc => Op.addTokens tc.1 tc.2) m
      = run (calls.map fun tc => Op.addTokens tc.1 tc.2) (startTracking t0 m) := rfl
  rw [h0, run_addTokens_totalTokens calls (startTracking t0 m)
    (startTracking_isTracking t0 m)
    (fun tc htc => by have := h tc htc; omega)]
  rw [startTracking_currentMetrics]
  simp [initialMetrics]

theorem totalTokens_sum_session_witness :
    (∀ tc ∈ ([((10 : Int), (3 : Int)), (20, 4)] : List (Int × Int)), (1 : Int) ≤ tc.2) ∧
    (run (Op.startTracking 0 "modelA" ::
        ([((10 : Int), (3 : Int)), (20, 4)] : List (Int × Int)).map
          fun tc => Op.addTokens tc.1 tc.2) initialMonitor).currentMetrics.totalTokens
      = (([((10 : Int), (3 : Int)), (20, 4)] : List (Int × Int)).map Prod.snd).sum :=
  ⟨by decide, totalTokens_sum_session initialMonitor 0 "modelA" _ (by decide)⟩

/-- Claim C2: in the recompute step, if `elapsedTime ≤ 0` all three speeds keep
their previous values; `currentSpeed` is recomputed exactly when the
(post-eviction) buffer holds more than one arrival and the span
`(now − oldest.timestamp)/1000` is positive, to `(Σ count)/span`; in every
other case it is unchanged. -/
theorem calculateSpeed_branch_spec (now : Int) (m : TokenSpeedMonitor) :
    (elapsedQ now m ≤ 0 →
      (calculateSpeed now m).currentMetrics.currentSpeed = m.currentMetrics.currentSpeed ∧
      (calculateSpeed now m).currentMetrics.averageSpeed = m.currentMetrics.averageSpeed ∧
      (calculateSpeed now m).currentMetrics.peakSpeed = m.currentMetrics.peakSpeed) ∧
    (0 < elapsedQ now m → 1 < m.tokenBuffer.length → 0 < timeSpanQ now m →
      (calculateSpeed now m).currentMetrics.currentSpeed =
        (recentTokens m : ℚ) / timeSpanQ now m) ∧
    (¬(0 < elapsedQ now m ∧ 1 < m.tokenBuffer.length ∧ 0 < timeSpanQ now m) →
      (calculateSpeed now m).currentMetrics.currentSpeed =
        m.currentMetrics.currentSpeed) := by
  refine ⟨?_, ?_, ?_⟩
  · intro h
    have hne : ¬ 0 < elapsedQ now m := not_lt.mpr h
    rw [calculateSpeed_currentSpeed, calculateSpeed_averageSpeed, calculateSpeed_peakSpeed]
    simp [hne]
  · intro h1 h2 h3
    rw [calculateSpeed_currentSpeed, if_pos ⟨h1, h2, h3⟩]
  · intro h
    rw [calculateSpeed_currentSpeed, if_neg h]

theorem calculateSpeed_branch_spec_witness :
    (0 : ℚ) < elapsedQ 2000 bufferedMonitor ∧
    1 < bufferedMonitor.tokenBuffer.length ∧
    (0 : ℚ) < timeSpanQ 2000 bufferedMonitor ∧
    (calculateSpeed 2000 bufferedMonitor).currentMetrics.currentSpeed
      = (recentTokens bufferedMonitor : ℚ) / timeSpanQ 2000 bufferedMonitor ∧
    elapsedQ 0 initialMonitor ≤ 0 ∧
    (calculateSpeed 0 initialMonitor).currentMetrics.currentSpeed
      = initialMonitor.currentMetrics.currentSpeed :=
  ⟨by simp [elapsedQ, bufferedMonitor, initialMonitor, resetMetrics], by decide,
   by simp [timeSpanQ, bufferedMonitor, initialMonitor, resetMetrics],
   (calculateSpeed_branch_spec 2000 bufferedMonitor).2.1
     (by simp [elapsedQ, bufferedMonitor, initialMonitor, resetMetrics]) (by decide)
     (by simp [timeSpanQ, bufferedMonitor, initialMonitor, resetMetrics]),
   by simp [elapsedQ, initialMonitor, resetMetrics],
   ((calculateSpeed_branch_spec 0 initialMonitor).1
     (by simp [elapsedQ, initialMonitor, resetMetrics])).1⟩

/-- Claim C3: within one tracking session (a `startTracking` followed by
`addTokens`/`stopTracking` calls), `peakSpeed` starts at 0, is non-decreasing
across every operation, and `peakSpeed ≥ currentSpeed` holds at every state of
the session. -/
theorem peakSpeed_session_invariant (m : TokenSpeedMonitor) (t0 : Int) (model : String)
    (ops : List Op) (h : ∀ op ∈ ops, op.isStart = false) :
    (step (Op.startTracking t0 model) m).1.currentMetrics.peakSpeed = 0 ∧
    List.Chain' (fun a b => a.currentMetrics.peakSpeed ≤ b.currentMetrics.peakSpeed)
      ((step (Op.startTracking t0 model) m).1 ::
        states ops (step (Op.startTracking t0 model) m).1) ∧
    ∀ s ∈ (step (Op.startTracking t0 model) m).1 ::
        states ops (step (Op.startTracking t0 model) m).1,
      s.currentMetrics.currentSpeed ≤ s.currentMetrics.peakSpeed := by
  have h0 : (step (Op.startTracking t0 model) m).1 = startTracking t0 m := rfl
  have hinv := states_peak_invariant ops (step (Op.startTracking t0 model) m).1 h
    (by rw [h0, startTracking_currentMetrics]; exact le_refl _)
  exact ⟨by rw [h0, startTracking_currentMetrics]; rfl, hinv.1, hinv.2⟩

theorem peakSpeed_session_invariant_witness :
    (∀ op ∈ sessionOpsW, op.isStart = false) ∧
    ((step (Op.startTracking 0 "modelA") initialMonitor).1.currentMetrics.peakSpeed = 0 ∧
     List.Chain' (fun a b => a.currentMetrics.peakSpeed ≤ b.currentMetrics.peakSpeed)
       ((step (Op.startTracking 0 "modelA") initialMonitor).1 ::
         states sessionOpsW (step (Op.startTracking 0 "modelA") initialMonitor).1) ∧
     ∀ s ∈ (step (Op.startTracking 0 "modelA") initialMonitor).1 ::
         states sessionOpsW (step (Op.startTracking 0 "modelA") initialMonitor).1,
       s.currentMetrics.currentSpeed ≤ s.currentMetrics.peakSpeed) :=
  ⟨by decide, peakSpeed_session_invariant initialMonitor 0 "modelA" sessionOpsW (by decide)⟩

/-- Claim C4 counterexample: with tracking active and `totalTokens = 0`,
`addTokens(-5)` drives `totalTokens` to `-5` — the negative count is added
verbatim, not rejected or clamped, and `totalTokens` decreases within the
session. -/
theorem addTokens_negative_counterexample :
    (startTracking 0 initialMonitor).isTracking = true ∧
    (startTracking 0 initialMonitor).currentMetrics.totalTokens = 0 ∧
    (addTokens 50 (-5) (startTracking 0 initialMonitor)).1.currentMetrics.totalTokens
      = -5 ∧
    (addTokens 50 (-5) (startTracking 0 initialMonitor)).1.currentMetrics.totalTokens
      < (startTracking 0 initialMonitor).currentMetrics.totalTokens := by
  refine ⟨rfl, rfl, ?_, ?_⟩ <;>
    rw [addTokens_fst_totalTokens 50 (-5) (startTracking 0 initialMonitor) rfl
      (by decide)] <;>
    decide

/-- Claim C4 (amended): `addTokens` performs no validation of negative counts:
while Tracking, a negative `count` is added to `totalTokens` unchanged (so
`totalTokens` can decrease); `totalTokens` is non-decreasing only across calls
with `count ≥ 0`. -/
theorem addTokens_negative_passthrough (now c : Int) (m : TokenSpeedMonitor) :
    (m.isTracking = true → c < 0 →
      (addTokens now c m).1.currentMetrics.totalTokens =
        m.currentMetrics.totalTokens + c) ∧
    (0 ≤ c → m.currentMetrics.totalTokens ≤
      (addTokens now c m).1.currentMetrics.totalTokens) := by
  constructor
  · intro h hneg
    exact addTokens_fst_totalTokens now c m h (by omega)
  · intro hpos
    by_cases ht : m.isTracking = true
    · by_cases hc : c = 0
      · rw [addTokens_noop now c m (Or.inr hc)]
      · rw [addTokens_fst_totalTokens now c m ht hc]
        omega
    · rw [addTokens_noop now c m (Or.inl (by simpa using ht))]

theorem addTokens_negative_passthrough_witness :
    ((startTracking 0 initialMonitor).isTracking = true ∧ (-5 : Int) < 0 ∧
      (addTokens 50 (-5) (startTracking 0 initialMonitor)).1.currentMetrics.totalTokens =
        (startTracking 0 initialMonitor).currentMetrics.totalTokens + (-5)) ∧
    ((0 : Int) ≤ 2 ∧
      (startTracking 0 initialMonitor).currentMetrics.totalTokens ≤
        (addTokens 50 2 (startTracking 0 initialMonitor)).1.currentMetrics.totalTokens) :=
  ⟨⟨rfl, by decide,
    (addTokens_negative_passthrough 50 (-5) (startTracking 0 initialMonitor)).1 rfl
      (by decide)⟩,
   ⟨by decide,
    (addTokens_negative_passthrough 50 2 (startTracking 0 initialMonitor)).2 (by decide)⟩⟩

/-- Claim C5: `addTokens` is a complete no-op when the state is not Tracking or
when `count = 0`: the whole monitor state (buffer, snapshot including
`totalTokens`, state flag, timers) is unchanged, no event is emitted and no
display refresh happens; in particular `addTokens(3)` before any
`startTracking` leaves `totalTokens` at 0. -/
theorem addTokens_noop_spec (now c : Int) (m : TokenSpeedMonitor)
    (h : m.isTracking = false ∨ c = 0) :
    step (Op.addTokens now c) m = (m, ⟨[], false⟩) ∧
    (step (Op.addTokens now 3) initialMonitor).1.currentMetrics.totalTokens = 0 := by
  constructor
  · have hn := addTokens_noop now c m h
    simp only [step]
    rw [hn]
  · have hn := addTokens_noop now 3 initialMonitor (Or.inl rfl)
    simp only [step]
    rw [hn]
    rfl

theorem addTokens_noop_spec_witness :
    (initialMonitor.isTracking = false ∨ (3 : Int) = 0) ∧
    (step (Op.addTokens 5 3) initialMonitor = (initialMonitor, ⟨[], false⟩) ∧
      (step (Op.addTokens 5 3) initialMonitor).1.currentMetrics.totalTokens = 0) :=
  ⟨Or.inl rfl, addTokens_noop_spec 5 3 initialMonitor (Or.inl rfl)⟩

/-- Claim C6: every effective `addTokens` call evicts all arrivals whose
timestamp is not strictly greater than `now − retentionWindow`, with
`retentionWindow = SPEED_BUFFER_SIZE × DISPLAY_THROTTLE_MS = 1000` ms (every
surviving buffer entry is strictly newer than the cutoff, and the surviving
buffer is exactly the filtered append); consequently an arrival already past
the window has no influence at all on the result of a later `addTokens` —
in particular none on the `currentSpeed` it computes. -/
theorem addTokens_eviction (now c : Int) (m : TokenSpeedMonitor)
    (h : m.isTracking = true) (hc : c ≠ 0) :
    SPEED_BUFFER_SIZE * DISPLAY_THROTTLE_MS = 1000 ∧
    (∀ p ∈ (addTokens now c m).1.tokenBuffer, now - 1000 < p.timestamp) ∧
    ((addTokens now c m).1.tokenBuffer =
      (m.tokenBuffer ++ [TokenDataPoint.mk c now]).filter
        (fun p => now - SPEED_BUFFER_SIZE * DISPLAY_THROTTLE_MS < p.timestamp)) ∧
    (∀ p : TokenDataPoint, p.timestamp ≤ now - 1000 →
      addTokens now c { m with tokenBuffer := p :: m.tokenBuffer } =
        addTokens now c m) := by
  have hSD : SPEED_BUFFER_SIZE * DISPLAY_THROTTLE_MS = (1000 : Int) := by decide
  refine ⟨hSD, ?_, addTokens_fst_tokenBuffer now c m h hc, ?_⟩
  · intro p hp
    rw [addTokens_fst_tokenBuffer now c m h hc] at hp
    have := List.of_mem_filter hp
    rw [hSD] at this
    simpa using this
  · intro p hp
    rw [addTokens_eq now c { m with tokenBuffer := p :: m.tokenBuffer } h hc,
      addTokens_eq now c m h hc]
    have hbuf :
        (({ m with tokenBuffer := p :: m.tokenBuffer } :
            TokenSpeedMonitor).tokenBuffer ++ [TokenDataPoint.mk c now]).filter
            (fun q => now - SPEED_BUFFER_SIZE * DISPLAY_THROTTLE_MS < q.timestamp)
          = (m.tokenBuffer ++ [TokenDataPoint.mk c now]).filter
            (fun q => now - SPEED_BUFFER_SIZE * DISPLAY_THROTTLE_MS < q.timestamp) := by
      show ((p :: m.tokenBuffer) ++ [TokenDataPoint.mk c now]).filter _ = _
      rw [List.cons_append, List.filter_cons_of_neg]
      rw [hSD]
      simpa using hp
    rw [hbuf]

theorem addTokens_eviction_witness :
    ((startTracking 0 initialMonitor).isTracking = true ∧ (4 : Int) ≠ 0) ∧
    (SPEED_BUFFER_SIZE * DISPLAY_THROTTLE_MS = 1000 ∧
     (∀ p ∈ (addTokens 1100 4 (startTracking 0 initialMonitor)).1.tokenBuffer,
        1100 - 1000 < p.timestamp) ∧
     ((addTokens 1100 4 (startTracking 0 initialMonitor)).1.tokenBuffer =
       ((startTracking 0 initialMonitor).tokenBuffer ++ [TokenDataPoint.mk 4 1100]).filter
         (fun p => 1100 - SPEED_BUFFER_SIZE * DISPLAY_THROTTLE_MS < p.timestamp)) ∧
     (∀ p : TokenDataPoint, p.timestamp ≤ 1100 - 1000 →
       addTokens 1100 4
           { startTracking 0 initialMonitor with
             tokenBuffer := p :: (startTracking 0 initialMonitor).tokenBuffer } =
         addTokens 1100 4 (startTracking 0 initialMonitor))) :=
  ⟨⟨rfl, by decide⟩,
   addTokens_eviction 1100 4 (startTracking 0 initialMonitor) rfl (by decide)⟩

/-- Claim C7: whenever `elapsedTime > 0` after a recompute step,
`averageSpeed = totalTokens / elapsedTime` (the whole-session average, taken
over `totalTokens`, which buffer eviction never touches), and the recompute
step is idempotent: running it again at the same instant with no new arrivals
yields the identical state. -/
theorem averageSpeed_and_idempotence (now : Int) (m : TokenSpeedMonitor) :
    (0 < (calculateSpeed now m).currentMetrics.elapsedTime →
      (calculateSpeed now m).currentMetrics.averageSpeed =
        ((calculateSpeed now m).currentMetrics.totalTokens : ℚ) /
          (calculateSpeed now m).currentMetrics.elapsedTime) ∧
    calculateSpeed now (calculateSpeed now m) = calculateSpeed now m := by
  refine ⟨?_, calculateSpeed_idem now m⟩
  intro h
  rw [calculateSpeed_elapsedTime] at h
  rw [calculateSpeed_averageSpeed, if_pos h, calculateSpeed_totalTokens,
    calculateSpeed_elapsedTime]

theorem averageSpeed_and_idempotence_witness :
    (0 : ℚ) < (calculateSpeed 1000 initialMonitor).currentMetrics.elapsedTime ∧
    ((calculateSpeed 1000 initialMonitor).currentMetrics.averageSpeed =
      ((calculateSpeed 1000 initialMonitor).currentMetrics.totalTokens : ℚ) /
        (calculateSpeed 1000 initialMonitor).currentMetrics.elapsedTime ∧
     calculateSpeed 1000 (calculateSpeed 1000 initialMonitor) =
       calculateSpeed 1000 initialMonitor) :=
  ⟨by rw [calculateSpeed_elapsedTime]; simp [elapsedQ, initialMonitor, resetMetrics],
   ⟨(averageSpeed_and_idempotence 1000 initialMonitor).1
      (by rw [calculateSpeed_elapsedTime]; simp [elapsedQ, initialMonitor, resetMetrics]),
    (averageSpeed_and_idempotence 1000 initialMonitor).2⟩⟩

/-- Claim C8: `DISPLAY_THROTTLE_MS = 100`; a refresh attempt succeeds exactly
when `now − lastDisplayUpdate ≥ DISPLAY_THROTTLE_MS`, and on success records
`lastDisplayUpdate = now`; consequently along any call trace the successful
display-refresh instants (starting from the stamp already recorded) are
separated pairwise by at least `DISPLAY_THROTTLE_MS`, no matter how many
`addTokens` calls occur in between. -/
theorem displayThrottle_spec (ops : List Op) (m : TokenSpeedMonitor) (now : Int) :
    DISPLAY_THROTTLE_MS = 100 ∧
    ((throttledUpdateDisplay now m).2 = true ↔
      DISPLAY_THROTTLE_MS ≤ now - m.lastDisplayUpdate) ∧
    ((throttledUpdateDisplay now m).1.lastDisplayUpdate =
      if DISPLAY_THROTTLE_MS ≤ now - m.lastDisplayUpdate then now
      else m.lastDisplayUpdate) ∧
    List.Chain' (fun a b => a + DISPLAY_THROTTLE_MS ≤ b)
      (m.lastDisplayUpdate :: refreshInstants ops m) := by
  refine ⟨rfl, ?_, ?_, refreshInstants_chain ops m⟩
  · rw [throttledUpdateDisplay_snd]
    exact decide_eq_true_iff
  · rw [throttledUpdateDisplay_fst]
    split_ifs <;> rfl

/-- Claim C9: the speed-to-icon classification maps every non-negative speed
into exactly one of five ordered bands with inclusive lower boundaries (the
five indicators are pairwise distinct, and each band's range yields its own
indicator); concretely 9.9 falls in band 1, exactly 10 in band 2, and exactly
100 in band 5. -/
theorem getSpeedIcon_bands (s : ℚ) (_h : 0 ≤ s) :
    (["🐌", "🚶", "🏃", "🚗", "🚀"] : List String).Nodup ∧
    (s < 10 → getSpeedIcon s = "🐌") ∧
    (10 ≤ s → s < 30 → getSpeedIcon s = "🚶") ∧
    (30 ≤ s → s < 60 → getSpeedIcon s = "🏃") ∧
    (60 ≤ s → s < 100 → getSpeedIcon s = "🚗") ∧
    (100 ≤ s → getSpeedIcon s = "🚀") ∧
    getSpeedIcon (99 / 10) = "🐌" ∧ getSpeedIcon 10 = "🚶" ∧
    getSpeedIcon 100 = "🚀" := by
  refine ⟨by decide, ?_, ?_, ?_, ?_, ?_, by norm_num [getSpeedIcon],
    by norm_num [getSpeedIcon], by norm_num [getSpeedIcon]⟩
  · intro h1
    unfold getSpeedIcon
    rw [if_pos h1]
  · intro h1 h2
    unfold getSpeedIcon
    rw [if_neg (not_lt.mpr h1), if_pos h2]
  · intro h1 h2
    unfold getSpeedIcon
    rw [if_neg (not_lt.mpr (by linarith)), if_neg (not_lt.mpr h1), if_pos h2]
  · intro h1 h2
    unfold getSpeedIcon
    rw [if_neg (not_lt.mpr (by linarith)), if_neg (not_lt.mpr (by linarith)),
      if_neg (not_lt.mpr h1), if_pos h2]
  · intro h1
    unfold getSpeedIcon
    rw [if_neg (not_lt.mpr (by linarith)), if_neg (not_lt.mpr (by linarith)),
      if_neg (not_lt.mpr (by linarith)), if_neg (not_lt.mpr h1)]

theorem getSpeedIcon_bands_witness :
    (0 : ℚ) ≤ 10 ∧
    ((["🐌", "🚶", "🏃", "🚗", "🚀"] : List String).Nodup ∧
     ((10 : ℚ) < 10 → getSpeedIcon 10 = "🐌") ∧
     ((10 : ℚ) ≤ 10 → (10 : ℚ) < 30 → getSpeedIcon 10 = "🚶") ∧
     ((30 : ℚ) ≤ 10 → (10 : ℚ) < 60 → getSpeedIcon 10 = "🏃") ∧
     ((60 : ℚ) ≤ 10 → (10 : ℚ) < 100 → getSpeedIcon 10 = "🚗") ∧
     ((100 : ℚ) ≤ 10 → getSpeedIcon 10 = "🚀") ∧
     getSpeedIcon (99 / 10) = "🐌" ∧ getSpeedIcon 10 = "🚶" ∧
     getSpeedIcon 100 = "🚀") :=
  ⟨by norm_num, getSpeedIcon_bands 10 (by norm_num)⟩

/-- Claim C10: neither `startTracking` nor `resetMetrics` resets
`lastDisplayUpdate`, so the display-throttle gate spans sessions: in a fresh
session, an `addTokens` whose instant is within `DISPLAY_THROTTLE_MS` of the
previous session's last recorded refresh stamp gets its display refresh
suppressed. -/
theorem throttle_gate_spans_sessions (m : TokenSpeedMonitor) (t0 t1 c : Int)
    (hc : c ≠ 0) (hlt : t1 - m.lastDisplayUpdate < DISPLAY_THROTTLE_MS) :
    (startTracking t0 m).lastDisplayUpdate = m.lastDisplayUpdate ∧
    (resetMetrics m).lastDisplayUpdate = m.lastDisplayUpdate ∧
    (addTokens t1 c (startTracking t0 m)).2 = false ∧
    (addTokens t1 c (startTracking t0 m)).1.lastDisplayUpdate =
      m.lastDisplayUpdate := by
  have h2 : (addTokens t1 c (startTracking t0 m)).2 = false := by
    rw [addTokens_snd_eq t1 c (startTracking t0 m) (startTracking_isTracking t0 m) hc,
      startTracking_lastDisplayUpdate]
    simp only [decide_eq_false_iff_not, not_le]
    omega
  refine ⟨rfl, rfl, h2, ?_⟩
  rw [addTokens_snd_false t1 c (startTracking t0 m) h2,
    startTracking_lastDisplayUpdate]

theorem throttle_gate_spans_sessions_witness :
    ((5 : Int) ≠ 0 ∧ 1050 - mLastW.lastDisplayUpdate < DISPLAY_THROTTLE_MS) ∧
    ((startTracking 1005 mLastW).lastDisplayUpdate = mLastW.lastDisplayUpdate ∧
     (resetMetrics mLastW).lastDisplayUpdate = mLastW.lastDisplayUpdate ∧
     (addTokens 1050 5 (startTracking 1005 mLastW)).2 = false ∧
     (addTokens 1050 5 (startTracking 1005 mLastW)).1.lastDisplayUpdate =
       mLastW.lastDisplayUpdate) :=
  ⟨⟨by decide, by decide⟩,
   throttle_gate_spans_sessions mLastW 1005 1050 5 (by decide) (by decide)⟩
